import Mathlib

/-!
Shallow embedding of the rcn crate (src/lib.rs): `Rcn<T>`, a single-threaded
reference-counted pointer with none values, together with its non-owning
observer `Weakn<T>`.

The Rust heap is modelled explicitly: a `Heap T` is an association list from
addresses to cells, each cell holding the control block `RcnBox` (strong
count, weak count, payload) and a `live` flag.  `System.dealloc` flips the
flag to `false` but the contents linger, exactly as freed memory does in the
single-threaded program; this makes "the code read freed memory" an
observable fact, while still letting us compute what the (undefined-behaviour)
reads actually return.  Handles store an `Option Nat` address: `Option.none`
is the null pointer.  A Rust panic is modelled as `Except.error` carrying the
panic message and the heap at the moment of the abort.
-/

namespace RcnSpec

/-- usize::MAX on a 64-bit target, the overflow bound checked by the
`inc_strong`/`inc_weak` helpers in src/lib.rs. -/
def USIZE_MAX : Nat := 2 ^ 64 - 1

/-- The control block `RcnBox<T>` of src/lib.rs: strong count, weak count and
the payload.  The `Cell` wrappers are invisible in a single-threaded model. -/
structure RcnBox (T : Type) where
  strong : Nat
  weak : Nat
  value : T
deriving DecidableEq

/-- One heap cell: the control block stored at an address plus a `live` flag
recording whether the allocation is still valid (contents linger after
`dealloc`). -/
structure MemCell (T : Type) where
  box : RcnBox T
  live : Bool
deriving DecidableEq

/-- The modelled heap: allocated cells keyed by address, plus the next fresh
address. -/
structure Heap (T : Type) where
  mem : List (Nat × MemCell T)
  next : Nat
deriving DecidableEq

variable {T : Type}

/-- Association-list lookup used by the heap model. -/
def lookupList : List (Nat × MemCell T) → Nat → Option (MemCell T)
  | [], _ => Option.none
  | p :: ps, a => if p.1 = a then some p.2 else lookupList ps a

/-- Association-list update of the control block stored at an address (the
`live` flag is preserved: a store through a pointer does not re-allocate). -/
def storeList : List (Nat × MemCell T) → Nat → RcnBox T → List (Nat × MemCell T)
  | [], _, _ => []
  | p :: ps, a, b => (if p.1 = a then (p.1, ⟨b, p.2.live⟩) else p) :: storeList ps a b

/-- Association-list deallocation: the cell is marked dead, its stale contents
linger. -/
def deallocList : List (Nat × MemCell T) → Nat → List (Nat × MemCell T)
  | [], _ => []
  | p :: ps, a => (if p.1 = a then (p.1, ⟨p.2.box, false⟩) else p) :: deallocList ps a

def Heap.lookup (h : Heap T) (a : Nat) : Option (MemCell T) :=
  lookupList h.mem a

def Heap.store (h : Heap T) (a : Nat) (b : RcnBox T) : Heap T :=
  ⟨storeList h.mem a b, h.next⟩

/-- `Box::into_raw(Box::new(...))`: a fresh, live allocation. -/
def Heap.alloc (h : Heap T) (b : RcnBox T) : Nat × Heap T :=
  (h.next, ⟨(h.next, ⟨b, true⟩) :: h.mem, h.next + 1⟩)

/-- `System.dealloc`: release the allocation at `a` (contents linger, flagged
dead). -/
def Heap.dealloc (h : Heap T) (a : Nat) : Heap T :=
  ⟨deallocList h.mem a, h.next⟩

/-- Is the allocation at `a` still valid (allocated and not yet released)? -/
def Heap.validAt (h : Heap T) (a : Nat) : Bool :=
  match h.lookup a with
  | some c => c.live
  | Option.none => false

/-- Well-formedness: every address present in memory is below the fresh
counter, so a fresh allocation never collides with an existing block. -/
def Heap.wf (h : Heap T) : Prop :=
  ∀ a c, h.lookup a = some c → a < h.next

/-- `Rcn<T>` of src/lib.rs: a (possibly null) raw pointer to a control block.
`ptr = Option.none` is the null pointer produced by `Rcn::none()`/`take`. -/
structure Rcn (T : Type) where
  ptr : Option Nat
deriving DecidableEq

/-- `Weakn<T>` of src/lib.rs: a (possibly null) raw pointer to a control
block. -/
structure Weakn (T : Type) where
  ptr : Option Nat
deriving DecidableEq

/-- Result of an operation that may panic: `Except.error` carries the panic
message and the heap at the moment of the abort (a panic never mutates the
heap in src/lib.rs: every check precedes the write). -/
abbrev PRes (T α : Type) := Except (String × Heap T) α

/-- Panic message used for `Option::unwrap` on the `None` produced by
`as_ref`/`as_mut` on a null (or wild) pointer. -/
def unwrapMsg : String := "called unwrap on a null pointer"

namespace Rcn

variable {T : Type}

/-- `Rcn::new`: fresh control block with strong = 1, weak = 0. -/
def new (h : Heap T) (data : T) : Rcn T × Heap T :=
  let p := Heap.alloc h ⟨1, 0, data⟩
  (⟨some p.1⟩, p.2)

/-- `Rcn::none`: the null-pointer handle. -/
def none : Rcn T :=
  ⟨Option.none⟩

/-- `Rcn::strong`: 0 for a null pointer, otherwise the count read through the
pointer (reads stale contents if the block was already released). -/
def strong (h : Heap T) (r : Rcn T) : Nat :=
  match r.ptr with
  | Option.none => 0
  | some a =>
    match h.lookup a with
    | some c => c.box.strong
    | Option.none => 0

/-- `Rcn::weak`: 0 for a null pointer, otherwise the count read through the
pointer. -/
def weak (h : Heap T) (r : Rcn T) : Nat :=
  match r.ptr with
  | Option.none => 0
  | some a =>
    match h.lookup a with
    | some c => c.box.weak
    | Option.none => 0

/-- `Rcn::strong_count`. -/
def strong_count (h : Heap T) (r : Rcn T) : Nat :=
  strong h r

/-- `Rcn::weak_count`. -/
def weak_count (h : Heap T) (r : Rcn T) : Nat :=
  weak h r

/-- `Rcn::is_unique`: `weak_count == 0 && strong_count == 1`. -/
def is_unique (h : Heap T) (r : Rcn T) : Bool :=
  (weak_count h r == 0) && (strong_count h r == 1)

/-- `Rcn::is_none`: `strong() == 0 || ptr.is_null()`. -/
def is_none (h : Heap T) (r : Rcn T) : Bool :=
  (strong h r == 0) || r.ptr.isNone

/-- `Rcn::is_some`: `strong() > 0 && !ptr.is_null()`. -/
def is_some (h : Heap T) (r : Rcn T) : Bool :=
  decide (0 < strong h r) && !r.ptr.isNone

/-- `Rcn::ptr_eq`: raw pointer comparison. -/
def ptr_eq (a b : Rcn T) : Bool :=
  decide (a.ptr = b.ptr)

/-- `Rcn::inc_strong`: panic at usize::MAX, otherwise write count + 1 through
the pointer (unwrap panics on null). -/
def inc_strong (h : Heap T) (r : Rcn T) : PRes T (Heap T) :=
  if strong h r == USIZE_MAX then .error ("abort inc strong", h)
  else
    match r.ptr with
    | Option.none => .error (unwrapMsg, h)
    | some a =>
      match h.lookup a with
      | some c => .ok (h.store a { c.box with strong := c.box.strong + 1 })
      | Option.none => .error (unwrapMsg, h)

/-- `Rcn::dec_strong`: panic at usize::MIN (that is, 0), otherwise write
count - 1 through the pointer. -/
def dec_strong (h : Heap T) (r : Rcn T) : PRes T (Heap T) :=
  if strong h r == 0 then .error ("abort dec strong", h)
  else
    match r.ptr with
    | Option.none => .error (unwrapMsg, h)
    | some a =>
      match h.lookup a with
      | some c => .ok (h.store a { c.box with strong := c.box.strong - 1 })
      | Option.none => .error (unwrapMsg, h)

/-- `Rcn::inc_weak`: panic at usize::MAX, otherwise write count + 1 through
the pointer. -/
def inc_weak (h : Heap T) (r : Rcn T) : PRes T (Heap T) :=
  if weak h r == USIZE_MAX then .error ("abort inc weak", h)
  else
    match r.ptr with
    | Option.none => .error (unwrapMsg, h)
    | some a =>
      match h.lookup a with
      | some c => .ok (h.store a { c.box with weak := c.box.weak + 1 })
      | Option.none => .error (unwrapMsg, h)

/-- `Rcn::dec_weak`: panic at 0, otherwise write count - 1 through the
pointer. -/
def dec_weak (h : Heap T) (r : Rcn T) : PRes T (Heap T) :=
  if weak h r == 0 then .error ("abort dec weak", h)
  else
    match r.ptr with
    | Option.none => .error (unwrapMsg, h)
    | some a =>
      match h.lookup a with
      | some c => .ok (h.store a { c.box with weak := c.box.weak - 1 })
      | Option.none => .error (unwrapMsg, h)

/-- `Rcn::share`: alias the control block, incrementing the strong count;
panics on a none handle. -/
def share (h : Heap T) (r : Rcn T) : PRes T (Rcn T × Heap T) :=
  if is_some h r then
    match inc_strong h r with
    | .error e => .error e
    | .ok h1 => .ok (⟨r.ptr⟩, h1)
  else .error ("share of Rcn with none value", h)

/-- `Rcn::downgrade`: increment the weak count, return a `Weakn` to the same
block. -/
def downgrade (h : Heap T) (r : Rcn T) : PRes T (Weakn T × Heap T) :=
  match inc_weak h r with
  | .error e => .error e
  | .ok h1 => .ok (⟨r.ptr⟩, h1)

/-- `Rcn::get`: a copy of the payload; panics on a none handle. -/
def get (h : Heap T) (r : Rcn T) : PRes T T :=
  if is_some h r then
    match r.ptr with
    | some a =>
      match h.lookup a with
      | some c => .ok c.box.value
      | Option.none => .error (unwrapMsg, h)
    | Option.none => .error (unwrapMsg, h)
  else .error ("access (get) of none rcn!", h)

/-- `Rcn::set`: overwrite the payload in place (no new allocation); panics on
a none handle. -/
def set (h : Heap T) (r : Rcn T) (data : T) : PRes T (Heap T) :=
  if is_some h r then
    match r.ptr with
    | some a =>
      match h.lookup a with
      | some c => .ok (h.store a { c.box with value := data })
      | Option.none => .error (unwrapMsg, h)
    | Option.none => .error (unwrapMsg, h)
  else .error ("write (set) in none rcn!\n \t help: Use Rcn:new(...) to none pointers", h)

/-- `Deref for Rcn`: read access to the payload; panics on a none handle. -/
def deref (h : Heap T) (r : Rcn T) : PRes T T :=
  if is_some h r then
    match r.ptr with
    | some a =>
      match h.lookup a with
      | some c => .ok c.box.value
      | Option.none => .error (unwrapMsg, h)
    | Option.none => .error (unwrapMsg, h)
  else .error ("deref of none rcn!", h)

/-- `DerefMut for Rcn`: obtain write access to the payload (modelled as the
value the obtained reference points at); panics on a none handle. -/
def deref_mut (h : Heap T) (r : Rcn T) : PRes T T :=
  if is_some h r then
    match r.ptr with
    | some a =>
      match h.lookup a with
      | some c => .ok c.box.value
      | Option.none => .error (unwrapMsg, h)
    | Option.none => .error (unwrapMsg, h)
  else .error ("deref_mut of none rcn!", h)

/-- `Clone for Rcn`: deep copy — a brand-new control block with strong = 1,
weak = 0 and a copy of the payload; a none handle clones to `Rcn::none()`. -/
def clone (h : Heap T) (r : Rcn T) : Rcn T × Heap T :=
  if is_some h r then
    match r.ptr with
    | some a =>
      match h.lookup a with
      | some c =>
        let p := Heap.alloc h ⟨1, 0, c.box.value⟩
        (⟨some p.1⟩, p.2)
      | Option.none => (Rcn.none, h) -- unreachable: is_some read the block
    | Option.none => (Rcn.none, h) -- unreachable: is_some implies non-null
  else (Rcn.none, h)

/-- `Rcn::take`: if unique, null the handle's pointer and move the payload
out (`out_ptr.read().value`) — note the allocation itself is not touched;
otherwise return `None` and change nothing.  Result: the extracted value, the
handle's new state, the heap. -/
def take (h : Heap T) (r : Rcn T) : Option T × Rcn T × Heap T :=
  if is_unique h r then
    match r.ptr with
    | some a =>
      match h.lookup a with
      | some c => (some c.box.value, ⟨Option.none⟩, h)
      | Option.none => (Option.none, ⟨Option.none⟩, h) -- unreachable: unique read the block
    | Option.none => (Option.none, ⟨Option.none⟩, h) -- unreachable: unique implies strong == 1
  else (Option.none, r, h)

/-- `Drop for Rcn`: if the handle is some, decrement strong; when strong hits
0, drop the payload in place and release the allocation — with no look at the
weak count. -/
def drop (h : Heap T) (r : Rcn T) : PRes T (Heap T) :=
  if is_some h r then
    match dec_strong h r with
    | .error e => .error e
    | .ok h1 =>
      if strong h1 r == 0 then
        match r.ptr with
        | some a => .ok (Heap.dealloc h1 a)
        | Option.none => .error (unwrapMsg, h1)
      else .ok h1
  else .ok h

end Rcn

namespace Weakn

variable {T : Type}

/-- `Weakn::new`: the null observer. -/
def new : Weakn T :=
  ⟨Option.none⟩

/-- `Weakn::none`: also the null observer (`0 as *mut RcnBox<T>`). -/
def none : Weakn T :=
  ⟨Option.none⟩

/-- `Weakn::strong`: reads the count through the raw pointer with no null
check — unwrap panics on null. -/
def strong (h : Heap T) (w : Weakn T) : PRes T Nat :=
  match w.ptr with
  | Option.none => .error (unwrapMsg, h)
  | some a =>
    match h.lookup a with
    | some c => .ok c.box.strong
    | Option.none => .error (unwrapMsg, h)

/-- `Weakn::weak`: reads the count through the raw pointer with no null
check. -/
def weak (h : Heap T) (w : Weakn T) : PRes T Nat :=
  match w.ptr with
  | Option.none => .error (unwrapMsg, h)
  | some a =>
    match h.lookup a with
    | some c => .ok c.box.weak
    | Option.none => .error (unwrapMsg, h)

/-- `Weakn::is_none`: `strong() == 0 || ptr.is_null()` — `strong()` is
evaluated first and panics on a null pointer before the null test is
reached. -/
def is_none (h : Heap T) (w : Weakn T) : PRes T Bool :=
  match strong h w with
  | .error e => .error e
  | .ok s => .ok ((s == 0) || w.ptr.isNone)

/-- `Weakn::is_some`: `strong() > 0 && !ptr.is_null()` — same panic-first
evaluation order. -/
def is_some (h : Heap T) (w : Weakn T) : PRes T Bool :=
  match strong h w with
  | .error e => .error e
  | .ok s => .ok (decide (0 < s) && !w.ptr.isNone)

/-- `Weakn::inc_strong`: the max check reads `strong()` first (panics on
null), then writes count + 1. -/
def inc_strong (h : Heap T) (w : Weakn T) : PRes T (Heap T) :=
  match strong h w with
  | .error e => .error e
  | .ok s =>
    if s == USIZE_MAX then .error ("abort inc strong", h)
    else
      match w.ptr with
      | some a =>
        match h.lookup a with
        | some c => .ok (h.store a { c.box with strong := c.box.strong + 1 })
        | Option.none => .error (unwrapMsg, h)
      | Option.none => .error (unwrapMsg, h)

/-- `Weakn::inc_weak`: the max check reads `weak()` first (panics on null),
then writes count + 1. -/
def inc_weak (h : Heap T) (w : Weakn T) : PRes T (Heap T) :=
  match weak h w with
  | .error e => .error e
  | .ok wv =>
    if wv == USIZE_MAX then .error ("abort inc weak", h)
    else
      match w.ptr with
      | some a =>
        match h.lookup a with
        | some c => .ok (h.store a { c.box with weak := c.box.weak + 1 })
        | Option.none => .error (unwrapMsg, h)
      | Option.none => .error (unwrapMsg, h)

/-- `Weakn::dec_weak`: reads `weak()` first (panics on null), panics at 0,
otherwise writes count - 1. -/
def dec_weak (h : Heap T) (w : Weakn T) : PRes T (Heap T) :=
  match weak h w with
  | .error e => .error e
  | .ok wv =>
    if wv == 0 then .error ("abort dec weak", h)
    else
      match w.ptr with
      | some a =>
        match h.lookup a with
        | some c => .ok (h.store a { c.box with weak := c.box.weak - 1 })
        | Option.none => .error (unwrapMsg, h)
      | Option.none => .error (unwrapMsg, h)

/-- `Weakn::share`: alias the observer, incrementing the weak count; the
`is_some` guard itself panics on a null observer. -/
def share (h : Heap T) (w : Weakn T) : PRes T (Weakn T × Heap T) :=
  match is_some h w with
  | .error e => .error e
  | .ok b =>
    if b then
      match inc_weak h w with
      | .error e => .error e
      | .ok h1 => .ok (⟨w.ptr⟩, h1)
    else .error ("share of Weakn with none value", h)

/-- `Weakn::upgrade`: reads `strong` through the raw pointer (unwrap panics
on null); returns `None` when strong == 0, otherwise increments strong and
returns a new `Rcn` to the same block. -/
def upgrade (h : Heap T) (w : Weakn T) : PRes T (Option (Rcn T) × Heap T) :=
  match strong h w with
  | .error e => .error e
  | .ok s =>
    if s == 0 then .ok (Option.none, h)
    else
      match inc_strong h w with
      | .error e => .error e
      | .ok h1 => .ok (some ⟨w.ptr⟩, h1)

/-- `Deref for Weakn`: read access to the payload; the `is_some` guard panics
on a null observer. -/
def deref (h : Heap T) (w : Weakn T) : PRes T T :=
  match is_some h w with
  | .error e => .error e
  | .ok b =>
    if b then
      match w.ptr with
      | some a =>
        match h.lookup a with
        | some c => .ok c.box.value
        | Option.none => .error (unwrapMsg, h)
      | Option.none => .error (unwrapMsg, h)
    else .error ("deref of none weakn!", h)

/-- `Drop for Weakn`: unconditionally `dec_weak` (the deallocation branch in
src/lib.rs is commented out). -/
def drop (h : Heap T) (w : Weakn T) : PRes T (Heap T) :=
  dec_weak h w

/-- `Clone for Weakn`: returns `Weakn::new()` — a fresh null observer, no
aliasing, no count change, the heap untouched. -/
def clone (h : Heap T) (_w : Weakn T) : Weakn T × Heap T :=
  (Weakn.new, h)

end Weakn

namespace Rcn

variable {T : Type}

/-- `Rcn::try_unwrap`: if strong == 1, copy the payload out via deref
(`ptr::read(&*this)`), decrement strong, increment weak, bind the temporary
`_weak` observer and forget `this`; the temporary observer is dropped when
the call returns, decrementing weak again.  Otherwise `Err(this)` with
nothing mutated.  `Sum.inl` is `Ok`, `Sum.inr` is `Err`. -/
def try_unwrap (h : Heap T) (this : Rcn T) : PRes T ((T ⊕ Rcn T) × Heap T) :=
  if strong_count h this == 1 then
    match deref h this with
    | .error e => .error e
    | .ok val =>
      match dec_strong h this with
      | .error e => .error e
      | .ok h1 =>
        match inc_weak h1 this with
        | .error e => .error e
        | .ok h2 =>
          match Weakn.drop h2 ⟨this.ptr⟩ with
          | .error e => .error e
          | .ok h3 => .ok (Sum.inl val, h3)
  else .ok (Sum.inr this, h)

end Rcn

end RcnSpec

namespace RcnSpec

variable {T : Type}

theorem lookupList_storeList_self (l : List (Nat × MemCell T)) (a : Nat) (b : RcnBox T) :
    lookupList (storeList l a b) a = (lookupList l a).map (fun c => ⟨b, c.live⟩) := by
  induction l with
  | nil => simp [lookupList, storeList]
  | cons p ps ih =>
    by_cases hpa : p.1 = a
    · simp [lookupList, storeList, hpa]
    · simp [lookupList, storeList, hpa, ih]

theorem lookupList_storeList_ne (l : List (Nat × MemCell T)) (a a' : Nat) (b : RcnBox T)
    (hne : a' ≠ a) :
    lookupList (storeList l a b) a' = lookupList l a' := by
  induction l with
  | nil => simp [lookupList, storeList]
  | cons p ps ih =>
    by_cases hpa : p.1 = a
    · simp [lookupList, storeList, hpa, Ne.symm hne, ih]
    · simp [lookupList, storeList, hpa, ih]

theorem Heap.lookup_store_self (h : Heap T) (a : Nat) (b : RcnBox T) :
    (h.store a b).lookup a = (h.lookup a).map (fun c => ⟨b, c.live⟩) :=
  lookupList_storeList_self h.mem a b

theorem Heap.lookup_store_ne (h : Heap T) (a a' : Nat) (b : RcnBox T) (hne : a' ≠ a) :
    (h.store a b).lookup a' = h.lookup a' :=
  lookupList_storeList_ne h.mem a a' b hne

theorem Heap.store_next (h : Heap T) (a : Nat) (b : RcnBox T) :
    (h.store a b).next = h.next := rfl

theorem Heap.lookup_alloc_self (h : Heap T) (b : RcnBox T) :
    (h.alloc b).2.lookup (h.alloc b).1 = some ⟨b, true⟩ := by
  simp [Heap.alloc, Heap.lookup, lookupList]

theorem Heap.lookup_alloc_ne (h : Heap T) (b : RcnBox T) (a : Nat) (hne : a ≠ h.next) :
    (h.alloc b).2.lookup a = h.lookup a := by
  simp [Heap.alloc, Heap.lookup, lookupList, Ne.symm hne]

theorem is_some_eq_not_is_none (h : Heap T) (r : Rcn T) :
    Rcn.is_some h r = !(Rcn.is_none h r) := by
  unfold Rcn.is_some Rcn.is_none
  cases hs : Rcn.strong h r with
  | zero => simp
  | succ n => simp

theorem is_unique_iff (h : Heap T) (r : Rcn T) :
    Rcn.is_unique h r = true ↔ (Rcn.strong_count h r = 1 ∧ Rcn.weak_count h r = 0) := by
  unfold Rcn.is_unique
  simp [Bool.and_eq_true, beq_iff_eq, and_comm]

/-- From a strong count of exactly 1 the handle pointer is non-null and its
block is in memory. -/
theorem strong_eq_one_dest (h : Heap T) (r : Rcn T) (hs : Rcn.strong h r = 1) :
    ∃ a c, r.ptr = some a ∧ h.lookup a = some c ∧ c.box.strong = 1 := by
  unfold Rcn.strong at hs
  split at hs
  next => exact absurd hs (by decide)
  next a heq =>
    split at hs
    next c hc => exact ⟨a, c, heq, hc, hs⟩
    next => exact absurd hs (by decide)

/-- Concrete trace (claims C1/C2): state after `Rcn::new(5)` in an empty
heap — one live block at address 0 with strong = 1, weak = 0. -/
def exHeap1 : Heap Nat := ⟨[(0, ⟨⟨1, 0, 5⟩, true⟩)], 1⟩

/-- State after `downgrade`: weak = 1. -/
def exHeap2 : Heap Nat := ⟨[(0, ⟨⟨1, 1, 5⟩, true⟩)], 1⟩

/-- State after dropping the only `Rcn`: strong = 0, weak still 1, and the
block has been released (`live = false`, stale contents linger). -/
def exHeap3 : Heap Nat := ⟨[(0, ⟨⟨0, 1, 5⟩, false⟩)], 1⟩

/-- The owning handle of the concrete trace. -/
def exRcn : Rcn Nat := ⟨some 0⟩

/-- The observer of the concrete trace. -/
def exWeakn : Weakn Nat := ⟨some 0⟩

/-- Claim C1: the control block is released exactly once, only when
strong_count == 0 and weak_count == 0 simultaneously, never while an observer
is live.  COUNTER-EVIDENCE (the code is the bug): dropping the only owning
handle of `Rcn::new(5)` after a `downgrade` releases the allocation
immediately, while weak_count == 1 — `Drop for Rcn` deallocates as soon as
strong reaches 0 without consulting the weak count. -/
theorem drop_releases_block_with_live_weak :
    Rcn.new (⟨[], 0⟩ : Heap Nat) 5 = (exRcn, exHeap1) ∧
    Rcn.downgrade exHeap1 exRcn = .ok (exWeakn, exHeap2) ∧
    Rcn.drop exHeap2 exRcn = .ok exHeap3 ∧
    Heap.validAt exHeap3 0 = false ∧
    (exHeap3.lookup 0).map (fun c => c.box.weak) = some 1 :=
  ⟨rfl, rfl, rfl, rfl, rfl⟩

/-- Claim C2: after the only owning handle is dropped, a previously derived
observer reports `is_none() == true` and `upgrade()` returns empty without
touching freed memory.  COUNTER-EVIDENCE for the memory part (the code is the
bug): in the same trace the block at address 0 is already released
(`validAt = false`) when `is_none`/`upgrade`/`strong` read it; the Boolean
results match the claim only because the stale contents linger. -/
theorem dead_weak_reads_freed_memory :
    Rcn.drop exHeap2 exRcn = .ok exHeap3 ∧
    Heap.validAt exHeap3 0 = false ∧
    Weakn.is_none exHeap3 exWeakn = .ok true ∧
    Weakn.upgrade exHeap3 exWeakn = .ok (Option.none, exHeap3) ∧
    Weakn.strong exHeap3 exWeakn = .ok 0 :=
  ⟨rfl, rfl, rfl, rfl, rfl⟩

/-- Concrete state (claim C3) after `Rcn::new(3)` in an empty heap. -/
def exHeapU : Heap Nat := ⟨[(0, ⟨⟨1, 0, 3⟩, true⟩)], 1⟩

/-- Concrete state after `try_unwrap` succeeds on it: strong = 0 and weak is
back to 0 (the transient observer was dropped); the block is never
released. -/
def exHeapV : Heap Nat := ⟨[(0, ⟨⟨0, 0, 3⟩, true⟩)], 1⟩

/-- Claim C3 counterexample: the claim says that after a successful
`try_unwrap` the control block's weak_count is one greater than before.  On
`Rcn::new(3)` (weak_count = 0) the call succeeds with `Ok(3)` but leaves
weak_count at 0, not 1: the temporary `_weak` observer created inside
`try_unwrap` is dropped before the call returns. -/
theorem try_unwrap_weak_increment_counterexample :
    Rcn.new (⟨[], 0⟩ : Heap Nat) 3 = (exRcn, exHeapU) ∧
    Rcn.weak_count exHeapU exRcn = 0 ∧
    Rcn.try_unwrap exHeapU exRcn = .ok (Sum.inl 3, exHeapV) ∧
    (exHeapV.lookup 0).map (fun c => c.box.weak) = some 0 ∧
    ¬ (exHeapV.lookup 0).map (fun c => c.box.weak) = some 1 :=
  ⟨rfl, rfl, rfl, rfl, by decide⟩

end RcnSpec

namespace RcnSpec

variable {T : Type}

/-- Claim C4: `take` returns the payload and leaves the handle in the none
state with zero counts iff strong_count == 1 and weak_count == 0 at call
time; in every other case it returns `None` and leaves the handle, the
payload and all counts untouched. -/
theorem take_uniqueness_gate (h : Heap T) (r : Rcn T) :
    ((Rcn.take h r).1.isSome = true ↔
      (Rcn.strong_count h r = 1 ∧ Rcn.weak_count h r = 0)) ∧
    (∀ a c, r.ptr = some a → h.lookup a = some c →
      Rcn.strong_count h r = 1 → Rcn.weak_count h r = 0 →
      Rcn.take h r = (some c.box.value, ⟨Option.none⟩, h) ∧
      Rcn.is_none h (⟨Option.none⟩ : Rcn T) = true ∧
      Rcn.strong_count h (⟨Option.none⟩ : Rcn T) = 0 ∧
      Rcn.weak_count h (⟨Option.none⟩ : Rcn T) = 0) ∧
    (¬ (Rcn.strong_count h r = 1 ∧ Rcn.weak_count h r = 0) →
      Rcn.take h r = (Option.none, r, h)) := by
  have key : ∀ a c, r.ptr = some a → h.lookup a = some c →
      Rcn.is_unique h r = true →
      Rcn.take h r = (some c.box.value, ⟨Option.none⟩, h) := by
    intro a c hp hc hu
    simp [Rcn.take, hu, hp, hc]
  have keyn : Rcn.is_unique h r = false → Rcn.take h r = (Option.none, r, h) := by
    intro hu
    simp [Rcn.take, hu]
  refine ⟨⟨?_, ?_⟩, ?_, ?_⟩
  · intro hs
    cases hq : Rcn.is_unique h r
    · rw [keyn hq] at hs
      simp at hs
    · exact (is_unique_iff h r).mp hq
  · rintro ⟨h1, h0⟩
    obtain ⟨a, c, hp, hc, _⟩ := strong_eq_one_dest h r h1
    rw [key a c hp hc ((is_unique_iff h r).mpr ⟨h1, h0⟩)]
    rfl
  · intro a c hp hc h1 h0
    exact ⟨key a c hp hc ((is_unique_iff h r).mpr ⟨h1, h0⟩), rfl, rfl, rfl⟩
  · intro hnot
    cases hq : Rcn.is_unique h r
    · exact keyn hq
    · exact absurd ((is_unique_iff h r).mp hq) hnot

/-- C4 at a concrete input: `take` on the unique `Rcn::new(3)` extracts 3 and
nulls the handle; `take` on a handle whose block has weak_count == 1 changes
nothing. -/
theorem take_uniqueness_gate_witness :
    Rcn.take exHeapU exRcn = (some 3, ⟨Option.none⟩, exHeapU) ∧
    Rcn.take exHeap2 exRcn = (Option.none, exRcn, exHeap2) :=
  ⟨((take_uniqueness_gate exHeapU exRcn).2.1 0 ⟨⟨1, 0, 3⟩, true⟩ rfl rfl rfl rfl).1,
   (take_uniqueness_gate exHeap2 exRcn).2.2 (by decide)⟩

/-- Claim C7: `share`, `get`, `set`, `deref` and `deref_mut` on a none handle
all abort with a descriptive panic message, and the heap at the moment of the
abort is exactly the heap at entry — no shared state was mutated. -/
theorem none_rcn_ops_panic (h : Heap T) (r : Rcn T) (v : T)
    (hn : Rcn.is_none h r = true) :
    Rcn.share h r = .error ("share of Rcn with none value", h) ∧
    Rcn.get h r = .error ("access (get) of none rcn!", h) ∧
    Rcn.set h r v =
      .error ("write (set) in none rcn!\n \t help: Use Rcn:new(...) to none pointers", h) ∧
    Rcn.deref h r = .error ("deref of none rcn!", h) ∧
    Rcn.deref_mut h r = .error ("deref_mut of none rcn!", h) := by
  have hs : Rcn.is_some h r = false := by
    rw [is_some_eq_not_is_none, hn]
    rfl
  refine ⟨?_, ?_, ?_, ?_, ?_⟩ <;>
    simp [Rcn.share, Rcn.get, Rcn.set, Rcn.deref, Rcn.deref_mut, hs]

/-- C7 at a concrete input: the operations panic on `Rcn::none()` over the
empty heap. -/
theorem none_rcn_ops_panic_witness :
    Rcn.share (⟨[], 0⟩ : Heap Nat) Rcn.none = .error ("share of Rcn with none value", ⟨[], 0⟩) ∧
    Rcn.get (⟨[], 0⟩ : Heap Nat) Rcn.none = .error ("access (get) of none rcn!", ⟨[], 0⟩) :=
  ⟨(none_rcn_ops_panic ⟨[], 0⟩ Rcn.none 0 rfl).1,
   (none_rcn_ops_panic ⟨[], 0⟩ Rcn.none 0 rfl).2.1⟩

/-- Claim C8: decrementing a counter that is already zero panics ("abort dec
strong" / "abort dec weak") with the heap untouched, never wrapping around;
when the counter is positive the stored value is exactly one less, for the
strong and weak counters of `Rcn` and the weak counter of `Weakn`. -/
theorem counter_underflow_panics (h : Heap T) (r : Rcn T) (w : Weakn T) :
    (Rcn.strong h r = 0 → Rcn.dec_strong h r = .error ("abort dec strong", h)) ∧
    (∀ a c, r.ptr = some a → h.lookup a = some c → c.box.strong ≠ 0 →
      Rcn.dec_strong h r = .ok (h.store a { c.box with strong := c.box.strong - 1 })) ∧
    (Rcn.weak h r = 0 → Rcn.dec_weak h r = .error ("abort dec weak", h)) ∧
    (∀ a c, r.ptr = some a → h.lookup a = some c → c.box.weak ≠ 0 →
      Rcn.dec_weak h r = .ok (h.store a { c.box with weak := c.box.weak - 1 })) ∧
    (∀ a c, w.ptr = some a → h.lookup a = some c → c.box.weak = 0 →
      Weakn.dec_weak h w = .error ("abort dec weak", h)) ∧
    (∀ a c, w.ptr = some a → h.lookup a = some c → c.box.weak ≠ 0 →
      Weakn.dec_weak h w = .ok (h.store a { c.box with weak := c.box.weak - 1 })) := by
  refine ⟨?_, ?_, ?_, ?_, ?_, ?_⟩
  · intro h0
    simp [Rcn.dec_strong, h0]
  · intro a c hp hc hne
    have hs : Rcn.strong h r = c.box.strong := by simp [Rcn.strong, hp, hc]
    simp [Rcn.dec_strong, hs, hp, hc, hne]
  · intro h0
    simp [Rcn.dec_weak, h0]
  · intro a c hp hc hne
    have hs : Rcn.weak h r = c.box.weak := by simp [Rcn.weak, hp, hc]
    simp [Rcn.dec_weak, hs, hp, hc, hne]
  · intro a c hp hc h0
    have hs : Weakn.weak h w = .ok c.box.weak := by simp [Weakn.weak, hp, hc]
    simp [Weakn.dec_weak, hs, h0]
  · intro a c hp hc hne
    have hs : Weakn.weak h w = .ok c.box.weak := by simp [Weakn.weak, hp, hc]
    simp [Weakn.dec_weak, hs, hp, hc, hne]

/-- C8 at concrete inputs: a strong count of 0 makes `dec_strong` panic; a
weak count of 1 decrements to 0. -/
theorem counter_underflow_panics_witness :
    Rcn.dec_strong exHeapV exRcn = .error ("abort dec strong", exHeapV) ∧
    Weakn.dec_weak exHeap3 exWeakn = .ok (exHeap3.store 0 ⟨0, 0, 5⟩) :=
  ⟨(counter_underflow_panics exHeapV exRcn exWeakn).1 rfl,
   (counter_underflow_panics exHeap3 exRcn exWeakn).2.2.2.2.2 0 ⟨⟨0, 1, 5⟩, false⟩
     rfl rfl (by decide)⟩

/-- Claim C9: `Weakn::clone` does not alias its receiver: it returns the null
observer `Weakn::new()`, leaves the heap — hence every weak count — untouched,
and the result references no control block; aliasing an observer is done by
`Weakn::share`, which returns a handle to the same block with weak + 1. -/
theorem weakn_clone_is_null_observer (h : Heap T) (w : Weakn T) :
    Weakn.clone h w = (Weakn.new, h) ∧
    (Weakn.clone h w).1.ptr = Option.none ∧
    (∀ a c, w.ptr = some a → h.lookup a = some c →
      (((Weakn.clone h w).2.lookup a).map fun c' => c'.box.weak) = some c.box.weak) ∧
    (∀ a c, w.ptr = some a → h.lookup a = some c → 0 < c.box.strong →
      c.box.weak ≠ USIZE_MAX →
      Weakn.share h w = .ok (⟨w.ptr⟩, h.store a { c.box with weak := c.box.weak + 1 })) := by
  refine ⟨rfl, rfl, ?_, ?_⟩
  · intro a c _hp hc
    simp [Weakn.clone, hc]
  · intro a c hp hc hpos hmax
    have hst : Weakn.strong h w = .ok c.box.strong := by simp [Weakn.strong, hp, hc]
    have hwk : Weakn.weak h w = .ok c.box.weak := by simp [Weakn.weak, hp, hc]
    simp [Weakn.share, Weakn.is_some, Weakn.inc_weak, hst, hwk, hp, hc, hpos, hmax]

/-- C9 at a concrete input: cloning a live observer yields the null observer
and leaves the block's weak count at 1, while `share` yields an alias with
weak count 2. -/
theorem weakn_clone_is_null_observer_witness :
    (((Weakn.clone exHeap2 exWeakn).2.lookup 0).map fun c' => c'.box.weak) = some 1 ∧
    Weakn.share exHeap2 exWeakn = .ok (⟨some 0⟩, exHeap2.store 0 ⟨1, 2, 5⟩) :=
  ⟨(weakn_clone_is_null_observer exHeap2 exWeakn).2.2.1 0 ⟨⟨1, 1, 5⟩, true⟩ rfl rfl,
   (weakn_clone_is_null_observer exHeap2 exWeakn).2.2.2 0 ⟨⟨1, 1, 5⟩, true⟩ rfl rfl
     (by decide) (by decide)⟩

/-- Claim C10: on an observer with a null internal pointer, `is_none`,
`is_some`, `share`, `upgrade`, `deref` and the destructor all panic on the
null-pointer unwrap instead of reporting absence, and `Weakn::new`,
`Weakn::none` and `Weakn::clone` are exactly the producers of such null
observers. -/
theorem null_weakn_ops_panic (h : Heap T) (w : Weakn T) (hw : w.ptr = Option.none) :
    Weakn.is_none h w = .error (unwrapMsg, h) ∧
    Weakn.is_some h w = .error (unwrapMsg, h) ∧
    Weakn.share h w = .error (unwrapMsg, h) ∧
    Weakn.upgrade h w = .error (unwrapMsg, h) ∧
    Weakn.deref h w = .error (unwrapMsg, h) ∧
    Weakn.drop h w = .error (unwrapMsg, h) ∧
    (Weakn.new : Weakn T).ptr = Option.none ∧
    (Weakn.none : Weakn T).ptr = Option.none ∧
    (Weakn.clone h w).1.ptr = Option.none := by
  have hst : Weakn.strong h w = .error (unwrapMsg, h) := by simp [Weakn.strong, hw]
  have hwk : Weakn.weak h w = .error (unwrapMsg, h) := by simp [Weakn.weak, hw]
  refine ⟨?_, ?_, ?_, ?_, ?_, ?_, rfl, rfl, rfl⟩ <;>
    simp [Weakn.is_none, Weakn.is_some, Weakn.share, Weakn.upgrade, Weakn.deref,
      Weakn.drop, Weakn.dec_weak, hst, hwk]

/-- C10 at a concrete input: the observer produced by `Weakn::new()` panics
on `is_none` and on drop, over the empty heap. -/
theorem null_weakn_ops_panic_witness :
    Weakn.is_none (⟨[], 0⟩ : Heap Nat) Weakn.new = .error (unwrapMsg, ⟨[], 0⟩) ∧
    Weakn.drop (⟨[], 0⟩ : Heap Nat) Weakn.new = .error (unwrapMsg, ⟨[], 0⟩) :=
  ⟨(null_weakn_ops_panic ⟨[], 0⟩ Weakn.new rfl).1,
   (null_weakn_ops_panic ⟨[], 0⟩ Weakn.new rfl).2.2.2.2.2.1⟩

end RcnSpec

namespace RcnSpec

variable {T : Type}

/-- `get` on a handle whose block is in memory with a positive strong count
returns the stored payload. -/
theorem get_ok (h : Heap T) (r : Rcn T) (a : Nat) (c : MemCell T)
    (hp : r.ptr = some a) (hc : h.lookup a = some c) (hpos : 0 < c.box.strong) :
    Rcn.get h r = .ok c.box.value := by
  have hstrong : Rcn.strong h r = c.box.strong := by simp [Rcn.strong, hp, hc]
  simp [Rcn.get, Rcn.is_some, hstrong, hp, hc, hpos]

/-- A one-block heap with fresh counter 1 is well formed. -/
theorem wf_singleton (cell : MemCell T) : Heap.wf (⟨[(0, cell)], 1⟩ : Heap T) := by
  intro a c hl
  simp only [Heap.lookup, lookupList] at hl
  split at hl
  next heq =>
    subst heq
    exact Nat.zero_lt_one
  next => exact absurd hl (by simp)

/-- Concrete state (claim C3 witness): a block with strong = 1 and one live
observer (weak = 1), payload 7. -/
def exHeapW : Heap Nat := ⟨[(0, ⟨⟨1, 1, 7⟩, true⟩)], 1⟩

/-- Claim C3 (amended): if `strong_count == 1` (weak observers may still
exist), `try_unwrap` consumes the handle and returns `Ok` with the payload;
afterwards the control block has strong = 0 and its weak count is UNCHANGED —
the observing reference created inside the call is dropped again before the
call returns — and the allocation is not released, so outstanding observers
do not dangle.  If `strong_count != 1`, the call returns `Err` carrying the
original handle and the heap is untouched. -/
theorem try_unwrap_amended_spec (h : Heap T) (r : Rcn T) :
    (∀ a c h3, r.ptr = some a → h.lookup a = some c → c.box.strong = 1 →
      c.box.weak < USIZE_MAX →
      h3 = ((h.store a { c.box with strong := 0 }).store a
              { c.box with strong := 0, weak := c.box.weak + 1 }).store a
              { c.box with strong := 0, weak := c.box.weak } →
      Rcn.try_unwrap h r = .ok (Sum.inl c.box.value, h3) ∧
      ((h3.lookup a).map fun c' => c'.box.weak) = some c.box.weak ∧
      ((h3.lookup a).map fun c' => c'.box.strong) = some 0 ∧
      Heap.validAt h3 a = Heap.validAt h a ∧
      h3.next = h.next ∧
      (∀ a', a' ≠ a → h3.lookup a' = h.lookup a')) ∧
    (Rcn.strong_count h r ≠ 1 → Rcn.try_unwrap h r = .ok (Sum.inr r, h)) := by
  constructor
  · intro a c h3 hp hc h1 hmax hh3
    have hstrong : Rcn.strong h r = 1 := by simp [Rcn.strong, hp, hc, h1]
    have hd : Rcn.deref h r = .ok c.box.value := by
      simp [Rcn.deref, Rcn.is_some, hstrong, hp, hc]
    have hdec : Rcn.dec_strong h r = .ok (h.store a { c.box with strong := 0 }) := by
      simp [Rcn.dec_strong, hstrong, hp, hc, h1]
    have hlA : (h.store a { c.box with strong := 0 }).lookup a
        = some ⟨{ c.box with strong := 0 }, c.live⟩ := by
      rw [Heap.lookup_store_self, hc]
      rfl
    have hwA : Rcn.weak (h.store a { c.box with strong := 0 }) r = c.box.weak := by
      simp [Rcn.weak, hp, hlA]
    have hinc : Rcn.inc_weak (h.store a { c.box with strong := 0 }) r
        = .ok ((h.store a { c.box with strong := 0 }).store a
            { c.box with strong := 0, weak := c.box.weak + 1 }) := by
      simp [Rcn.inc_weak, hwA, hp, hlA, Nat.ne_of_lt hmax]
    have hlB : ((h.store a { c.box with strong := 0 }).store a
          { c.box with strong := 0, weak := c.box.weak + 1 }).lookup a
        = some ⟨{ c.box with strong := 0, weak := c.box.weak + 1 }, c.live⟩ := by
      rw [Heap.lookup_store_self, hlA]
      rfl
    have hwB : Weakn.weak ((h.store a { c.box with strong := 0 }).store a
          { c.box with strong := 0, weak := c.box.weak + 1 }) (⟨some a⟩ : Weakn T)
        = .ok (c.box.weak + 1) := by
      simp [Weakn.weak, hlB]
    have hdrop : Weakn.drop ((h.store a { c.box with strong := 0 }).store a
          { c.box with strong := 0, weak := c.box.weak + 1 }) (⟨r.ptr⟩ : Weakn T)
        = .ok h3 := by
      rw [hh3, hp]
      simp [Weakn.drop, Weakn.dec_weak, hwB, hlB]
    have hlC : h3.lookup a
        = some ⟨{ c.box with strong := 0, weak := c.box.weak }, c.live⟩ := by
      rw [hh3, Heap.lookup_store_self, hlB]
      rfl
    refine ⟨?_, ?_, ?_, ?_, ?_, ?_⟩
    · simp [Rcn.try_unwrap, Rcn.strong_count, hstrong, hd, hdec, hinc, hdrop]
    · simp [hlC]
    · simp [hlC]
    · simp [Heap.validAt, hlC, hc]
    · rw [hh3]
      rfl
    · intro a' hne
      rw [hh3, Heap.lookup_store_ne _ _ _ _ hne, Heap.lookup_store_ne _ _ _ _ hne,
        Heap.lookup_store_ne _ _ _ _ hne]
  · intro hne
    simp [Rcn.try_unwrap, hne]

/-- C3 amended, at concrete inputs: `try_unwrap` succeeds on a block with
strong = 1, weak = 1 leaving weak at 1, and fails without mutation when
strong is not 1. -/
theorem try_unwrap_amended_spec_witness :
    Rcn.try_unwrap exHeapW ⟨some 0⟩
      = .ok (Sum.inl 7, ((exHeapW.store 0 ⟨0, 1, 7⟩).store 0 ⟨0, 2, 7⟩).store 0 ⟨0, 1, 7⟩) ∧
    Rcn.try_unwrap exHeap3 exRcn = .ok (Sum.inr exRcn, exHeap3) :=
  ⟨((try_unwrap_amended_spec exHeapW ⟨some 0⟩).1 0 ⟨⟨1, 1, 7⟩, true⟩
      (((exHeapW.store 0 ⟨0, 1, 7⟩).store 0 ⟨0, 2, 7⟩).store 0 ⟨0, 1, 7⟩)
      rfl rfl rfl (by decide) rfl).1,
   (try_unwrap_amended_spec exHeap3 exRcn).2 (by decide)⟩

/-- Claim C5: `clone` of a some handle allocates a brand-new control block —
`ptr_eq` with the source is false — carrying strong = 1, weak = 0 and an
independent copy of the payload; a `set` through the clone leaves the
source's payload untouched and a `set` through the source leaves the clone's
payload untouched; `clone` of a none handle returns a fresh none handle. -/
theorem clone_deep_copy_independent (h : Heap T) (r : Rcn T) (hwf : Heap.wf h) :
    (∀ a c, r.ptr = some a → h.lookup a = some c → Rcn.is_some h r = true →
      Rcn.ptr_eq r (Rcn.clone h r).1 = false ∧
      Rcn.strong_count (Rcn.clone h r).2 (Rcn.clone h r).1 = 1 ∧
      Rcn.weak_count (Rcn.clone h r).2 (Rcn.clone h r).1 = 0 ∧
      Rcn.get (Rcn.clone h r).2 (Rcn.clone h r).1 = .ok c.box.value ∧
      Rcn.get (Rcn.clone h r).2 r = .ok c.box.value ∧
      (∀ v h2, Rcn.set (Rcn.clone h r).2 (Rcn.clone h r).1 v = .ok h2 →
        Rcn.get h2 r = .ok c.box.value) ∧
      (∀ v h2, Rcn.set (Rcn.clone h r).2 r v = .ok h2 →
        Rcn.get h2 (Rcn.clone h r).1 = .ok c.box.value)) ∧
    (Rcn.is_none h r = true → Rcn.clone h r = (Rcn.none, h)) := by
  constructor
  · intro a c hp hc hsm
    have hstrong : Rcn.strong h r = c.box.strong := by simp [Rcn.strong, hp, hc]
    have hpos : 0 < c.box.strong := by
      rw [Rcn.is_some, hstrong] at hsm
      simp only [Bool.and_eq_true, decide_eq_true_eq] at hsm
      exact hsm.1
    have hne : a ≠ h.next := Nat.ne_of_lt (hwf a c hc)
    have hclone : Rcn.clone h r
        = (⟨some (h.alloc ⟨1, 0, c.box.value⟩).1⟩, (h.alloc ⟨1, 0, c.box.value⟩).2) := by
      simp [Rcn.clone, hsm, hp, hc]
    have hlself : (h.alloc (⟨1, 0, c.box.value⟩ : RcnBox T)).2.lookup
        (h.alloc (⟨1, 0, c.box.value⟩ : RcnBox T)).1 = some ⟨⟨1, 0, c.box.value⟩, true⟩ :=
      Heap.lookup_alloc_self h ⟨1, 0, c.box.value⟩
    have hlother : (h.alloc (⟨1, 0, c.box.value⟩ : RcnBox T)).2.lookup a = some c :=
      (Heap.lookup_alloc_ne h ⟨1, 0, c.box.value⟩ a hne).trans hc
    refine ⟨?_, ?_, ?_, ?_, ?_, ?_, ?_⟩
    · rw [hclone]
      simp [Rcn.ptr_eq, hp, Heap.alloc, hne]
    · rw [hclone]
      simp [Rcn.strong_count, Rcn.strong, hlself]
    · rw [hclone]
      simp [Rcn.weak_count, Rcn.weak, hlself]
    · rw [hclone]
      exact get_ok _ _ _ ⟨⟨1, 0, c.box.value⟩, true⟩ rfl hlself Nat.one_pos
    · rw [hclone]
      exact get_ok _ _ a c hp hlother hpos
    · intro v h2 hset
      rw [hclone] at hset
      have hsetC : Rcn.set (h.alloc (⟨1, 0, c.box.value⟩ : RcnBox T)).2
          (⟨some (h.alloc (⟨1, 0, c.box.value⟩ : RcnBox T)).1⟩ : Rcn T) v
          = .ok ((h.alloc (⟨1, 0, c.box.value⟩ : RcnBox T)).2.store
              (h.alloc (⟨1, 0, c.box.value⟩ : RcnBox T)).1 ⟨1, 0, v⟩) := by
        simp [Rcn.set, Rcn.is_some, Rcn.strong, hlself]
      rw [hsetC] at hset
      have hh2 : h2 = (h.alloc (⟨1, 0, c.box.value⟩ : RcnBox T)).2.store
          (h.alloc (⟨1, 0, c.box.value⟩ : RcnBox T)).1 ⟨1, 0, v⟩ :=
        (Except.ok.inj hset).symm
      subst hh2
      exact get_ok _ _ a c hp
        ((Heap.lookup_store_ne _ _ _ _ hne).trans hlother) hpos
    · intro v h2 hset
      rw [hclone] at hset ⊢
      have hsetR : Rcn.set (h.alloc (⟨1, 0, c.box.value⟩ : RcnBox T)).2 r v
          = .ok ((h.alloc (⟨1, 0, c.box.value⟩ : RcnBox T)).2.store a
              { c.box with value := v }) := by
        have hs2 : Rcn.strong (h.alloc (⟨1, 0, c.box.value⟩ : RcnBox T)).2 r
            = c.box.strong := by
          simp [Rcn.strong, hp, hlother]
        simp [Rcn.set, Rcn.is_some, hs2, hp, hlother, hpos]
      rw [hsetR] at hset
      have hh2 : h2 = (h.alloc (⟨1, 0, c.box.value⟩ : RcnBox T)).2.store a
          { c.box with value := v } :=
        (Except.ok.inj hset).symm
      subst hh2
      exact get_ok _ _ (h.alloc (⟨1, 0, c.box.value⟩ : RcnBox T)).1
        ⟨⟨1, 0, c.box.value⟩, true⟩ rfl
        ((Heap.lookup_store_ne _ a (h.alloc (⟨1, 0, c.box.value⟩ : RcnBox T)).1
          { c.box with value := v } (Ne.symm hne)).trans hlself) Nat.one_pos
  · intro hn
    have hs : Rcn.is_some h r = false := by
      rw [is_some_eq_not_is_none, hn]
      rfl
    simp [Rcn.clone, hs]

/-- C5 at a concrete input: cloning the unique handle to 5 yields a handle to
a different block, holding its own 5. -/
theorem clone_deep_copy_independent_witness :
    Rcn.ptr_eq exRcn (Rcn.clone exHeap1 exRcn).1 = false ∧
    Rcn.get (Rcn.clone exHeap1 exRcn).2 (Rcn.clone exHeap1 exRcn).1 = .ok 5 :=
  ⟨((clone_deep_copy_independent exHeap1 exRcn (wf_singleton _)).1 0 ⟨⟨1, 0, 5⟩, true⟩
      rfl rfl rfl).1,
   ((clone_deep_copy_independent exHeap1 exRcn (wf_singleton _)).1 0 ⟨⟨1, 0, 5⟩, true⟩
      rfl rfl rfl).2.2.2.1⟩

end RcnSpec

namespace RcnSpec

variable {T : Type}

/-- Claim C6: `share` on a some handle returns an alias of the same control
block — `ptr_eq` true, strong count incremented by exactly one, weak count
and payload untouched, no new allocation — and a subsequent `set` through the
alias overwrites the shared payload in place (again no new allocation), so
the original handle immediately observes the new value. -/
theorem share_alias_set_visibility (h : Heap T) (r : Rcn T) (a : Nat) (c : MemCell T)
    (hp : r.ptr = some a) (hc : h.lookup a = some c)
    (hsm : Rcn.is_some h r = true) (hmax : c.box.strong ≠ USIZE_MAX)
    (h1 : Heap T) (hh1 : h1 = h.store a { c.box with strong := c.box.strong + 1 }) :
    Rcn.share h r = .ok (⟨r.ptr⟩, h1) ∧
    Rcn.ptr_eq r (⟨r.ptr⟩ : Rcn T) = true ∧
    Rcn.strong_count h1 (⟨r.ptr⟩ : Rcn T) = Rcn.strong_count h r + 1 ∧
    Rcn.strong_count h1 r = Rcn.strong_count h r + 1 ∧
    Rcn.weak_count h1 r = Rcn.weak_count h r ∧
    Rcn.get h1 r = Rcn.get h r ∧
    h1.next = h.next ∧
    (∀ v h2, h2 = h1.store a { c.box with strong := c.box.strong + 1, value := v } →
      Rcn.set h1 (⟨r.ptr⟩ : Rcn T) v = .ok h2 ∧ h2.next = h1.next ∧
      Rcn.get h2 r = .ok v ∧ Rcn.get h2 (⟨r.ptr⟩ : Rcn T) = .ok v) := by
  subst hh1
  have hstrong : Rcn.strong h r = c.box.strong := by simp [Rcn.strong, hp, hc]
  have hpos : 0 < c.box.strong := by
    rw [Rcn.is_some, hstrong] at hsm
    simp only [Bool.and_eq_true, decide_eq_true_eq] at hsm
    exact hsm.1
  have hl1 : (h.store a { c.box with strong := c.box.strong + 1 }).lookup a
      = some ⟨{ c.box with strong := c.box.strong + 1 }, c.live⟩ := by
    rw [Heap.lookup_store_self, hc]
    rfl
  refine ⟨?_, ?_, ?_, ?_, ?_, ?_, rfl, ?_⟩
  · simp [Rcn.share, hsm, Rcn.inc_strong, hstrong, hp, hc, hmax]
  · simp [Rcn.ptr_eq]
  · simp [Rcn.strong_count, Rcn.strong, hp, hl1, hc]
  · simp [Rcn.strong_count, Rcn.strong, hp, hl1, hc]
  · simp [Rcn.weak_count, Rcn.weak, hp, hl1, hc]
  · rw [get_ok h r a c hp hc hpos]
    exact get_ok _ r a ⟨{ c.box with strong := c.box.strong + 1 }, c.live⟩ hp hl1
      (Nat.succ_pos _)
  · intro v h2 hh2
    subst hh2
    have hl2 : ((h.store a { c.box with strong := c.box.strong + 1 }).store a
          { c.box with strong := c.box.strong + 1, value := v }).lookup a
        = some ⟨{ c.box with strong := c.box.strong + 1, value := v }, c.live⟩ := by
      rw [Heap.lookup_store_self, hl1]
      rfl
    refine ⟨?_, rfl, ?_, ?_⟩
    · simp [Rcn.set, Rcn.is_some, Rcn.strong, hp, hl1]
    · exact get_ok _ r a ⟨{ c.box with strong := c.box.strong + 1, value := v }, c.live⟩
        hp hl2 (Nat.succ_pos _)
    · exact get_ok _ _ a ⟨{ c.box with strong := c.box.strong + 1, value := v }, c.live⟩
        hp hl2 (Nat.succ_pos _)

/-- C6 at a concrete input: sharing the unique handle to 5 gives an alias to
block 0 with strong = 2; setting 9 through the alias is observed through the
original handle. -/
theorem share_alias_set_visibility_witness :
    Rcn.share exHeap1 exRcn = .ok (⟨some 0⟩, exHeap1.store 0 ⟨2, 0, 5⟩) ∧
    Rcn.set (exHeap1.store 0 ⟨2, 0, 5⟩) (⟨some 0⟩ : Rcn Nat) 9
      = .ok ((exHeap1.store 0 ⟨2, 0, 5⟩).store 0 ⟨2, 0, 9⟩) ∧
    Rcn.get ((exHeap1.store 0 ⟨2, 0, 5⟩).store 0 ⟨2, 0, 9⟩) exRcn = .ok 9 :=
  ⟨(share_alias_set_visibility exHeap1 exRcn 0 ⟨⟨1, 0, 5⟩, true⟩ rfl rfl rfl (by decide)
      (exHeap1.store 0 ⟨2, 0, 5⟩) rfl).1,
   ((share_alias_set_visibility exHeap1 exRcn 0 ⟨⟨1, 0, 5⟩, true⟩ rfl rfl rfl (by decide)
      (exHeap1.store 0 ⟨2, 0, 5⟩) rfl).2.2.2.2.2.2.2 9
      ((exHeap1.store 0 ⟨2, 0, 5⟩).store 0 ⟨2, 0, 9⟩) rfl).1,
   ((share_alias_set_visibility exHeap1 exRcn 0 ⟨⟨1, 0, 5⟩, true⟩ rfl rfl rfl (by decide)
      (exHeap1.store 0 ⟨2, 0, 5⟩) rfl).2.2.2.2.2.2.2 9
      ((exHeap1.store 0 ⟨2, 0, 5⟩).store 0 ⟨2, 0, 9⟩) rfl).2.2.1⟩

end RcnSpec
